import Mathlib

/-!
Shallow embedding of the Voronoi-Maker transform pipeline
(`src/voronoimaker/pipeline.py` and `src/voronoimaker/cli.py`).

Python floats are modelled as elements of a linear ordered field `K`
(instantiated with `ℚ` for executable claims and with `ℝ` for the claim
about the radial rotation, which involves `π`, `cos` and `sin`).
The trigonometric functions and the constant `π` supplied by the host
numeric stack (numpy / trimesh) enter the embedding as explicit
parameters `cosF`, `sinF`, `piK`.

Python exceptions (`PipelineError`, `typer.BadParameter`) are modelled
with `Except`: a `PipelineError` carries its message string, a
`BadParameter` carries the pair `(param_hint, message)`.
-/

namespace VoronoiMaker

variable {K : Type} [LinearOrderedField K]

/-- A 3D point, as used for vertices and seed points. -/
abbrev Point (K : Type) := K × K × K

/-- A metadata value stored in a mesh's `metadata` mapping: the pipeline
stores the mode tag (a string), the numeric parameters (floats, here `K`)
and the seed count (an int, here `Nat`). -/
inductive MValue (K : Type) where
  | s (v : String)
  | x (v : K)
  | n (v : Nat)
  deriving DecidableEq

/-- A mesh metadata mapping, modelling a Python `dict` as an ordered
association list with unique keys looked up by `List.lookup`. -/
abbrev Metadata (K : Type) := List (String × MValue K)

/-- Insert `(k, v)` into a Python-style dict: if `k` is present its value
is overwritten in place, otherwise the pair is appended at the end. -/
def dictInsert (md : Metadata K) (k : String) (v : MValue K) : Metadata K :=
  if (md.lookup k).isSome then
    md.map (fun kv => if kv.1 = k then (k, v) else kv)
  else
    md ++ [(k, v)]

/-- A triangulated mesh: vertex positions, triangular faces given as index
triples into `vertices`, and the metadata mapping
(`trimesh.Trimesh` as used by the pipeline). -/
structure Mesh (K : Type) where
  vertices : List (Point K)
  faces : List (Nat × Nat × Nat)
  metadata : Metadata K
  deriving DecidableEq

/-- Arithmetic mean of a list of points (used for the seed centroid in
`apply_multicenter_voronoi`: `seeds_array.mean(axis=0)`). -/
def meanPoint (ps : List (Point K)) : Point K :=
  ((ps.length : K))⁻¹ • ps.sum

/-- Modelled from the spec: `trimesh.Trimesh.centroid`, the derived
representative point of the mesh used as rotation/offset pivot; the spec
allows "the mean (or geometric center, depending on convention)", taken
here as the mean of the vertex positions. -/
def Mesh.centroid (m : Mesh K) : Point K :=
  meanPoint m.vertices

/-- `_copy_mesh`: a defensive copy of the mesh (`mesh.copy()`); the
`isinstance` guard in the source never fires for a `Trimesh` input, so the
embedding is the value copy itself. -/
def copy_mesh (m : Mesh K) : Mesh K :=
  { vertices := m.vertices, faces := m.faces, metadata := m.metadata }

/-- `trimesh.Trimesh.apply_scale` with a scalar: uniform scale of all
vertex positions about the origin. -/
def applyScale (factor : K) (m : Mesh K) : Mesh K :=
  { m with vertices := m.vertices.map (fun v => factor • v) }

/-- The four `voronoi_*` metadata entries written by every operator
(`{**getattr(mesh, "metadata", {}), "voronoi_mode": tag, ...}`). -/
def voronoiMeta (tag : String) (shell_thickness density relief_depth : K)
    (old : Metadata K) : Metadata K :=
  dictInsert
    (dictInsert
      (dictInsert
        (dictInsert old "voronoi_mode" (.s tag))
        "voronoi_shell_thickness" (.x shell_thickness))
      "voronoi_density" (.x density))
    "voronoi_relief_depth" (.x relief_depth)

/-- `apply_surface_voronoi`: copy, scale by
`1 + max(density,0)*0.05 + max(shell_thickness,0)*0.01`, then—only when
`relief_depth > 0`—translate every vertex by `(0, 0, relief_depth*0.1)`,
then rewrite the metadata. -/
def apply_surface_voronoi (shell_thickness density relief_depth : K)
    (mesh : Mesh K) : Mesh K :=
  let result := copy_mesh mesh
  let scale_factor := 1 + max density 0 * 0.05 + max shell_thickness 0 * 0.01
  let result := applyScale scale_factor result
  let result :=
    if 0 < relief_depth then
      { result with
        vertices := result.vertices.map
          (fun v => v + ((0 : K), (0 : K), relief_depth * 0.1)) }
    else result
  { result with
    metadata := voronoiMeta "surface" shell_thickness density relief_depth
      mesh.metadata }

/-- Modelled from the spec: the effect on one point of
`trimesh.transformations.rotation_matrix(angle, [0,0,1], point=c)` (an
external library call): a rotation of `angle` radians about the vertical
axis `(0,0,1)` pivoted at `c`. `cosF`/`sinF` are the host library's
trigonometric functions (instantiated with `Real.cos`/`Real.sin`). -/
def rotateZAbout (cosF sinF : K → K) (angle : K) (c p : Point K) : Point K :=
  let x := p.1 - c.1
  let y := p.2.1 - c.2.1
  let z := p.2.2 - c.2.2
  (cosF angle * x - sinF angle * y + c.1,
   sinF angle * x + cosF angle * y + c.2.1,
   z + c.2.2)

/-- `apply_radial_voronoi`: copy, rotate all vertices by
`max(density,0)*(π/4) + relief_depth*0.05` radians about the vertical axis
through the (untransformed) copy's centroid, then scale uniformly by
`1 + max(shell_thickness,0)*0.01` about the origin, then rewrite the
metadata. `piK` is the host library's `np.pi` (instantiated with
`Real.pi`). -/
def apply_radial_voronoi (cosF sinF : K → K) (piK : K)
    (shell_thickness density relief_depth : K) (mesh : Mesh K) : Mesh K :=
  let result := copy_mesh mesh
  let rotation_angle := max density 0 * (piK / 4) + relief_depth * 0.05
  let pivot := result.centroid
  let result :=
    { result with
      vertices := result.vertices.map (rotateZAbout cosF sinF rotation_angle pivot) }
  let radial_scale := 1 + max shell_thickness 0 * 0.01
  let result := applyScale radial_scale result
  { result with
    metadata := voronoiMeta "radial" shell_thickness density relief_depth
      mesh.metadata }

/-- `apply_multicenter_voronoi`: fails with a `PipelineError` when `seeds`
is empty (before the mesh is copied); otherwise copy, translate every
vertex by `(seed_centroid - centroid) * (max(density,0) + relief_depth*0.1)`,
scale uniformly by `1 + max(shell_thickness,0)*0.005*len(seeds)`, then
rewrite the metadata (including `voronoi_seed_count`). -/
def apply_multicenter_voronoi (shell_thickness density relief_depth : K)
    (seeds : List (Point K)) (mesh : Mesh K) : Except String (Mesh K) :=
  if seeds.isEmpty then
    .error "multicenter mode requires at least one seed point."
  else
    let result := copy_mesh mesh
    let centroid := meanPoint seeds
    let offset := (max density 0 + relief_depth * 0.1) • (centroid - result.centroid)
    let result := { result with vertices := result.vertices.map (fun v => v + offset) }
    let thickness_scale := 1 + max shell_thickness 0 * 0.005 * (seeds.length : K)
    let result := applyScale thickness_scale result
    .ok { result with
      metadata :=
        dictInsert
          (voronoiMeta "multicenter" shell_thickness density relief_depth
            mesh.metadata)
          "voronoi_seed_count" (.n seeds.length) }

/-- Python's `str.lower()` on the mode string, modelled as per-character
lowercasing of the string's character list. -/
def strLower (s : String) : String :=
  ⟨s.data.map Char.toLower⟩

/-- `run_pipeline`: normalise the mode string with `mode.lower()` and route
to the matching operator; an unrecognised mode raises
`PipelineError(f"Unsupported Voronoi mode: \x7bmode\x7d.")` with the
original (unnormalised) string interpolated. -/
def run_pipeline (cosF sinF : K → K) (piK : K) (mode : String)
    (shell_thickness density relief_depth : K) (seeds : List (Point K))
    (mesh : Mesh K) : Except String (Mesh K) :=
  let mode_normalised := strLower mode
  if mode_normalised = "surface" then
    .ok (apply_surface_voronoi shell_thickness density relief_depth mesh)
  else if mode_normalised = "radial" then
    .ok (apply_radial_voronoi cosF sinF piK shell_thickness density relief_depth mesh)
  else if mode_normalised = "multicenter" then
    apply_multicenter_voronoi shell_thickness density relief_depth seeds mesh
  else
    .error ("Unsupported Voronoi mode: " ++ mode ++ ".")

/-! CLI layer (`src/voronoimaker/cli.py`). -/

/-- The CLI's `Mode` enumeration. -/
inductive Mode where
  | surface
  | radial
  | multicenter
  deriving DecidableEq

/-- The string value behind each `Mode` member. -/
def Mode.value : Mode → String
  | .surface => "surface"
  | .radial => "radial"
  | .multicenter => "multicenter"

/-- A `typer.BadParameter` error: `(param_hint, message)`. -/
abbrev BadParameter := String × String

/-- `_ensure_positive`: fail unless `value` is strictly positive. -/
def ensure_positive (name : String) (value : K) : Except BadParameter Unit :=
  if value ≤ 0 then .error (name, name ++ " must be greater than zero.")
  else .ok ()

/-- `_ensure_non_negative`: fail unless `value` is zero or positive. -/
def ensure_non_negative (name : String) (value : K) : Except BadParameter Unit :=
  if value < 0 then .error (name, name ++ " must be zero or greater.")
  else .ok ()

/-- `_ensure_at_most`: fail if `value` exceeds `maximum`. The validator's
only call always supplies the explicit `message` (the unused default
branch would interpolate `maximum` into a generic message). -/
def ensure_at_most (name : String) (value maximum : K) (message : String) :
    Except BadParameter Unit :=
  if maximum < value then .error (name, message)
  else .ok ()

/-- `_validate_parameters`: the CLI parameter validator, checks in source
order; the first failing rule's `BadParameter` is raised. -/
def validate_parameters (mode : Mode) (shell_thickness density relief_depth : K)
    (seeds : List (Point K)) : Except BadParameter Unit := do
  ensure_positive "shell_thickness" shell_thickness
  ensure_non_negative "density" density
  ensure_at_most "density" density 1
    "density must be between 0 and 1 (inclusive)."
  ensure_non_negative "relief_depth" relief_depth
  if mode ≠ .multicenter ∧ ¬ seeds.isEmpty then
    throw ("seeds", "seeds can only be provided when using multicenter mode.")
  if mode = .multicenter ∧ seeds.isEmpty then
    throw ("seeds",
      "seeds must provide at least one centroid when using multicenter mode.")
  if mode = .surface ∧ relief_depth = 0 then
    throw ("relief_depth",
      "relief_depth must be greater than zero when using surface mode.")
  return ()

/-- The `run` command's resolution of `--relief-depth` when the option is
omitted: `1.0` in surface mode, `0.0` otherwise (before validation). -/
def resolve_relief_depth (mode : Mode) (relief_depth : Option K) : K :=
  match relief_depth with
  | none => if mode = .surface then 1 else 0
  | some v => v

/-- The `run` command's default for `--shell-thickness`. -/
def default_shell_thickness : K := 2.0

/-- The `run` command's default for `--density`. -/
def default_density : K := 0.5

/-- Helper: `charsContain pat l` is true when `pat` occurs contiguously in `l`. -/
def charsContain (pat : List Char) : List Char → Bool
  | [] => pat.isEmpty
  | c :: rest => pat.isPrefixOf (c :: rest) || charsContain pat rest

/-- `hasSubstr s pat` is true when `pat` occurs inside `s`. -/
def hasSubstr (s pat : String) : Bool :=
  charsContain pat.data s.data

/-! Explicit state passing for the operators' local mutation.

The Python operators mutate only their local `result` (the defensive
copy); the parameter binding `mesh` is never reassigned and its object
never written. The `_state` variants make that explicit: they thread the
value of every local through the function body and return the final value
of the `mesh` binding alongside the returned mesh, so that "the input is
unchanged after the call" becomes a provable equation. -/

/-- State-passing form of `apply_surface_voronoi`: returns the final value
of the `mesh` binding together with the returned mesh. -/
def apply_surface_voronoi_state (shell_thickness density relief_depth : K)
    (mesh0 : Mesh K) : Mesh K × Mesh K :=
  let mesh := mesh0
  let result := copy_mesh mesh
  let scale_factor := 1 + max density 0 * 0.05 + max shell_thickness 0 * 0.01
  let result := applyScale scale_factor result
  let result :=
    if 0 < relief_depth then
      { result with
        vertices := result.vertices.map
          (fun v => v + ((0 : K), (0 : K), relief_depth * 0.1)) }
    else result
  let result :=
    { result with
      metadata := voronoiMeta "surface" shell_thickness density relief_depth
        mesh.metadata }
  (mesh, result)

/-- State-passing form of `apply_radial_voronoi`. -/
def apply_radial_voronoi_state (cosF sinF : K → K) (piK : K)
    (shell_thickness density relief_depth : K) (mesh0 : Mesh K) :
    Mesh K × Mesh K :=
  let mesh := mesh0
  let result := copy_mesh mesh
  let rotation_angle := max density 0 * (piK / 4) + relief_depth * 0.05
  let pivot := result.centroid
  let result :=
    { result with
      vertices := result.vertices.map (rotateZAbout cosF sinF rotation_angle pivot) }
  let radial_scale := 1 + max shell_thickness 0 * 0.01
  let result := applyScale radial_scale result
  let result :=
    { result with
      metadata := voronoiMeta "radial" shell_thickness density relief_depth
        mesh.metadata }
  (mesh, result)

/-- State-passing form of `apply_multicenter_voronoi`: additionally
reports the final value of the `result` local (`none` when the guard
raised before `result = _copy_mesh(mesh)` ever ran). -/
def apply_multicenter_voronoi_state (shell_thickness density relief_depth : K)
    (seeds : List (Point K)) (mesh0 : Mesh K) :
    Mesh K × Option (Mesh K) × Except String (Mesh K) :=
  let mesh := mesh0
  if seeds.isEmpty then
    (mesh, none, .error "multicenter mode requires at least one seed point.")
  else
    let result := copy_mesh mesh
    let centroid := meanPoint seeds
    let offset := (max density 0 + relief_depth * 0.1) • (centroid - result.centroid)
    let result := { result with vertices := result.vertices.map (fun v => v + offset) }
    let thickness_scale := 1 + max shell_thickness 0 * 0.005 * (seeds.length : K)
    let result := applyScale thickness_scale result
    let result :=
      { result with
        metadata :=
          dictInsert
            (voronoiMeta "multicenter" shell_thickness density relief_depth
              mesh.metadata)
            "voronoi_seed_count" (.n seeds.length) }
    (mesh, some result, .ok result)

/-! Sample data for concrete witnesses. -/

/-- A small concrete triangle mesh over `ℚ` used to instantiate universal
theorems at a concrete input. -/
def sampleMesh : Mesh ℚ :=
  { vertices := [(0, 0, 0), (1, 0, 0), (0, 1, 0)]
    faces := [(0, 1, 2)]
    metadata := [("source", .s "unit")] }

/-! Theorems settling the claims. -/

/-- Claim C1: For every mesh, `apply_surface_voronoi` maps each vertex to
`scale • v`, with `scale = 1 + max(density,0)*0.05 + max(shell_thickness,0)*0.01`,
and then—only when `relief_depth > 0`—adds `(0, 0, relief_depth*0.1)`
(scale first, translation second); with `density = 0.3`,
`shell_thickness = 1.5`, `relief_depth = 0.2` the scale factor is exactly
`1.03` and the offset exactly `(0, 0, 0.02)`. -/
theorem surface_scale_then_translate (K : Type) [LinearOrderedField K]
    (mesh : Mesh K) (shell_thickness density relief_depth : K) :
    (apply_surface_voronoi shell_thickness density relief_depth mesh).vertices
      = mesh.vertices.map (fun v =>
          if 0 < relief_depth then
            (1 + max density 0 * 0.05 + max shell_thickness 0 * 0.01) • v
              + ((0 : K), (0 : K), relief_depth * 0.1)
          else
            (1 + max density 0 * 0.05 + max shell_thickness 0 * 0.01) • v)
    ∧ (apply_surface_voronoi (1.5 : K) 0.3 0.2 mesh).vertices
      = mesh.vertices.map (fun v =>
          (1.03 : K) • v + ((0 : K), (0 : K), (0.02 : K))) := by
  constructor
  · by_cases h : 0 < relief_depth <;>
      simp [apply_surface_voronoi, applyScale, copy_mesh, List.map_map,
        Function.comp, h]
  · have hd : max (0.3 : K) 0 = 0.3 := max_eq_left (by norm_num)
    have hs : max (1.5 : K) 0 = 1.5 := max_eq_left (by norm_num)
    have hr : (0 : K) < 0.2 := by norm_num
    simp only [apply_surface_voronoi, applyScale, copy_mesh, hd, hs,
      if_pos hr, List.map_map]
    refine List.map_congr_left (fun v _ => ?_)
    norm_num

/-- Claim C2: For every mesh, `apply_radial_voronoi` (with the real
trigonometric functions and `π`) maps each vertex to the rotation by
`max(density,0)*(π/4) + relief_depth*0.05` radians about the vertical axis
through the mesh's centroid, followed by the uniform scale
`1 + max(shell_thickness,0)*0.01` about the origin; with `density = 0.4`,
`shell_thickness = 2.0`, `relief_depth = 0` the angle is `0.4*(π/4)` and
the scale factor `1.02`. -/
theorem radial_rotate_about_centroid_then_scale (mesh : Mesh ℝ)
    (shell_thickness density relief_depth : ℝ) :
    (apply_radial_voronoi Real.cos Real.sin Real.pi
        shell_thickness density relief_depth mesh).vertices
      = mesh.vertices.map (fun v =>
          (1 + max shell_thickness 0 * 0.01) •
            rotateZAbout Real.cos Real.sin
              (max density 0 * (Real.pi / 4) + relief_depth * 0.05)
              mesh.centroid v)
    ∧ (apply_radial_voronoi Real.cos Real.sin Real.pi (2 : ℝ) 0.4 0 mesh).vertices
      = mesh.vertices.map (fun v =>
          (1.02 : ℝ) •
            rotateZAbout Real.cos Real.sin (0.4 * (Real.pi / 4))
              mesh.centroid v) := by
  constructor
  · simp [apply_radial_voronoi, applyScale, copy_mesh, Mesh.centroid,
      List.map_map, Function.comp]
  · have hd : max (0.4 : ℝ) 0 = 0.4 := max_eq_left (by norm_num)
    have hs : max (2 : ℝ) 0 = 2 := max_eq_left (by norm_num)
    simp only [apply_radial_voronoi, applyScale, copy_mesh, Mesh.centroid,
      hd, hs, List.map_map]
    refine List.map_congr_left (fun v _ => ?_)
    norm_num [Function.comp]

/-- Claim C3: For every mesh and non-empty seed list,
`apply_multicenter_voronoi` translates every vertex by
`(mean(seeds) - mesh.centroid) * (max(density,0) + relief_depth*0.1)` and
then scales uniformly by `1 + max(shell_thickness,0)*0.005*|seeds|`, so the
scale factor grows linearly with the number of seeds. -/
theorem multicenter_translate_then_scale (K : Type) [LinearOrderedField K]
    (mesh : Mesh K) (shell_thickness density relief_depth : K)
    (seeds : List (Point K)) (h : seeds ≠ []) :
    (apply_multicenter_voronoi shell_thickness density relief_depth seeds
        mesh).map Mesh.vertices
      = Except.ok (mesh.vertices.map (fun v =>
          (1 + max shell_thickness 0 * 0.005 * (seeds.length : K)) •
            (v + (max density 0 + relief_depth * 0.1) •
              (meanPoint seeds - mesh.centroid)))) := by
  simp [apply_multicenter_voronoi, h, applyScale, copy_mesh, Mesh.centroid,
    List.map_map, Function.comp, Except.map, smul_add]

/-- Witness for **C3** at a concrete mesh and a one-seed list. -/
theorem multicenter_translate_then_scale_witness :
    ([((1 : ℚ), (1 : ℚ), (1 : ℚ))] ≠ ([] : List (Point ℚ)))
    ∧ (apply_multicenter_voronoi (2 : ℚ) 0.5 0 [(1, 1, 1)] sampleMesh).map
          Mesh.vertices
        = Except.ok (sampleMesh.vertices.map (fun v =>
            (1 + max (2 : ℚ) 0 * 0.005
                * (([((1 : ℚ), (1 : ℚ), (1 : ℚ))].length : ℚ))) •
              (v + (max (0.5 : ℚ) 0 + 0 * 0.1) •
                (meanPoint [(1, 1, 1)] - sampleMesh.centroid)))) :=
  ⟨List.cons_ne_nil _ _,
    multicenter_translate_then_scale ℚ sampleMesh 2 0.5 0 [(1, 1, 1)]
      (List.cons_ne_nil _ _)⟩

/-- Claim C4: For every mesh and all parameter values,
`apply_multicenter_voronoi` with an empty seed list (called directly,
bypassing the validator) fails with the `PipelineError` message
"multicenter mode requires at least one seed point.", and it does so
before the mesh is copied or any geometry is touched: the `result` local
is never created and the input binding still holds the original mesh. -/
theorem multicenter_empty_seeds_fails (K : Type) [LinearOrderedField K]
    (shell_thickness density relief_depth : K) (mesh : Mesh K) :
    apply_multicenter_voronoi shell_thickness density relief_depth [] mesh
      = Except.error "multicenter mode requires at least one seed point."
    ∧ apply_multicenter_voronoi_state shell_thickness density relief_depth [] mesh
      = (mesh, none,
          Except.error "multicenter mode requires at least one seed point.")
    ∧ hasSubstr "multicenter mode requires at least one seed point."
        "multicenter mode requires at least one seed point" = true :=
  ⟨rfl, rfl, by decide⟩

/-- Counterexample for claim C5: At mode `"bogus"` the dispatcher's error is
`"Unsupported Voronoi mode: bogus."`, not the claimed
`"unsupported mode: bogus"`. -/
theorem dispatcher_message_counterexample :
    run_pipeline (K := ℚ) id id 0 "bogus" 2 0.5 0 [] sampleMesh
      = Except.error "Unsupported Voronoi mode: bogus."
    ∧ run_pipeline (K := ℚ) id id 0 "bogus" 2 0.5 0 [] sampleMesh
      ≠ Except.error "unsupported mode: bogus" := by
  have hb : strLower "bogus" = "bogus" := by decide
  have h1 : run_pipeline (K := ℚ) id id 0 "bogus" 2 0.5 0 [] sampleMesh
      = Except.error "Unsupported Voronoi mode: bogus." := by
    simp [run_pipeline, hb]
  refine ⟨h1, ?_⟩
  intro h
  rw [h1] at h
  exact absurd (Except.error.inj h) (by decide)

/-- Claim C5 as amended: The dispatcher lowercases the mode string and routes
to exactly one operator when it equals `"surface"`, `"radial"` or
`"multicenter"`; any other string fails with the `PipelineError` message
`"Unsupported Voronoi mode: <value>."` (which contains the offending
value), and the dispatcher validates no parameters: arbitrary
`shell_thickness`, `density`, `relief_depth` are passed straight to the
operator. -/
theorem dispatcher_routes_and_rejects (K : Type) [LinearOrderedField K]
    (cosF sinF : K → K) (piK : K) (mode : String)
    (shell_thickness density relief_depth : K) (seeds : List (Point K))
    (mesh : Mesh K) :
    (strLower mode = "surface" →
      run_pipeline cosF sinF piK mode shell_thickness density relief_depth
          seeds mesh
        = .ok (apply_surface_voronoi shell_thickness density relief_depth mesh))
    ∧ (strLower mode = "radial" →
      run_pipeline cosF sinF piK mode shell_thickness density relief_depth
          seeds mesh
        = .ok (apply_radial_voronoi cosF sinF piK shell_thickness density
            relief_depth mesh))
    ∧ (strLower mode = "multicenter" →
      run_pipeline cosF sinF piK mode shell_thickness density relief_depth
          seeds mesh
        = apply_multicenter_voronoi shell_thickness density relief_depth
            seeds mesh)
    ∧ (strLower mode ≠ "surface" → strLower mode ≠ "radial" →
        strLower mode ≠ "multicenter" →
      run_pipeline cosF sinF piK mode shell_thickness density relief_depth
          seeds mesh
        = .error ("Unsupported Voronoi mode: " ++ mode ++ ".")) := by
  refine ⟨fun h => ?_, fun h => ?_, fun h => ?_, fun h1 h2 h3 => ?_⟩
  · simp [run_pipeline, h]
  · simp [run_pipeline, h]
  · simp [run_pipeline, h]
  · simp [run_pipeline, h1, h2, h3]

/-- Witness for **C5 (amended)**: the uppercase mode string `"SURFACE"` is
routed to the surface operator. -/
theorem dispatcher_routes_and_rejects_witness :
    (strLower "SURFACE" = "surface")
    ∧ run_pipeline (K := ℚ) id id 0 "SURFACE" 2 0.5 1 [] sampleMesh
        = .ok (apply_surface_voronoi 2 0.5 1 sampleMesh) :=
  ⟨by decide,
    (dispatcher_routes_and_rejects ℚ id id 0 "SURFACE" 2 0.5 1 []
      sampleMesh).1 (by decide)⟩

/-- Counterexample for claim C6: At `density = 1.5` the validator's message is
`"density must be between 0 and 1 (inclusive)."`; the claimed phrase
`"must be at most 1"` does not occur in it. -/
theorem density_message_counterexample :
    validate_parameters (K := ℚ) .radial 2 1.5 0 []
      = Except.error ("density", "density must be between 0 and 1 (inclusive).")
    ∧ hasSubstr "density must be between 0 and 1 (inclusive)."
        "must be at most 1" = false := by
  refine ⟨?_, by decide⟩
  simp [validate_parameters, ensure_positive, ensure_non_negative,
    ensure_at_most, Bind.bind, Except.bind,
    (by norm_num : ¬((2 : ℚ) ≤ 0)), (by norm_num : ¬((1.5 : ℚ) < 0)),
    (by norm_num : (1 : ℚ) < 1.5)]

/-- Claim C6 as amended: For every mode, a density outside `[0, 1]` fails
validation with an `InvalidParameter` on field `density`, checked after
the `shell_thickness` rule and before the `relief_depth` and seeds rules
(the conclusion holds for arbitrary `relief_depth` and `seeds`), with a
distinct message for density below `0`
(`"density must be zero or greater."`) versus density above `1`
(`"density must be between 0 and 1 (inclusive)."`); in particular
`density = 1.5` always fails with the latter message, which mentions the
`[0, 1]` bound. -/
theorem density_validation_order (K : Type) [LinearOrderedField K]
    (mode : Mode) (shell_thickness density relief_depth : K)
    (seeds : List (Point K)) :
    (shell_thickness ≤ 0 →
      validate_parameters mode shell_thickness density relief_depth seeds
        = .error ("shell_thickness",
            "shell_thickness must be greater than zero."))
    ∧ (0 < shell_thickness → density < 0 →
      validate_parameters mode shell_thickness density relief_depth seeds
        = .error ("density", "density must be zero or greater."))
    ∧ (0 < shell_thickness → 1 < density →
      validate_parameters mode shell_thickness density relief_depth seeds
        = .error ("density",
            "density must be between 0 and 1 (inclusive)."))
    ∧ (0 < shell_thickness →
      validate_parameters mode shell_thickness (1.5 : K) relief_depth seeds
        = .error ("density",
            "density must be between 0 and 1 (inclusive)."))
    ∧ hasSubstr "density must be between 0 and 1 (inclusive)." "between 0 and 1"
        = true := by
  refine ⟨fun h => ?_, fun h1 h2 => ?_, fun h1 h2 => ?_, fun h1 => ?_, by decide⟩
  · simp [validate_parameters, ensure_positive, ensure_non_negative,
      ensure_at_most, h, Bind.bind, Except.bind]
  · simp [validate_parameters, ensure_positive, ensure_non_negative,
      ensure_at_most, not_le.2 h1, h2, Bind.bind, Except.bind]
  · simp [validate_parameters, ensure_positive, ensure_non_negative,
      ensure_at_most, not_le.2 h1, not_lt.2 (le_trans zero_le_one h2.le),
      h2, Bind.bind, Except.bind]
  · simp [validate_parameters, ensure_positive, ensure_non_negative,
      ensure_at_most, not_le.2 h1, (by norm_num : (1 : K) < 1.5),
      not_lt.2 (by norm_num : (0 : K) ≤ 1.5), Bind.bind, Except.bind]

/-- Witness for **C6 (amended)**: concrete checks of the below-0 and
above-1 branches at `ℚ`. -/
theorem density_validation_order_witness :
    ((0 : ℚ) < 2) ∧ ((-1 : ℚ) < 0) ∧ ((1 : ℚ) < 2)
    ∧ validate_parameters (K := ℚ) .surface 2 (-1) 5 []
        = .error ("density", "density must be zero or greater.")
    ∧ validate_parameters (K := ℚ) .multicenter 2 2 0 [(0, 0, 0)]
        = .error ("density", "density must be between 0 and 1 (inclusive).") :=
  ⟨by norm_num, by norm_num, by norm_num,
    (density_validation_order ℚ .surface 2 (-1) 5 []).2.1 (by norm_num)
      (by norm_num),
    (density_validation_order ℚ .multicenter 2 2 0 [(0, 0, 0)]).2.2.1
      (by norm_num) (by norm_num)⟩

/-- Helper: the surface operator keeps the face list and the vertex count. -/
theorem surface_topology (K : Type) [LinearOrderedField K]
    (shell_thickness density relief_depth : K) (m : Mesh K) :
    (apply_surface_voronoi shell_thickness density relief_depth m).faces = m.faces
    ∧ (apply_surface_voronoi shell_thickness density relief_depth m).vertices.length
        = m.vertices.length := by
  by_cases h : 0 < relief_depth <;>
    simp [apply_surface_voronoi, applyScale, copy_mesh, h]

/-- Helper: the radial operator keeps the face list and the vertex count. -/
theorem radial_topology (K : Type) [LinearOrderedField K]
    (cosF sinF : K → K) (piK shell_thickness density relief_depth : K)
    (m : Mesh K) :
    (apply_radial_voronoi cosF sinF piK shell_thickness density relief_depth
        m).faces = m.faces
    ∧ (apply_radial_voronoi cosF sinF piK shell_thickness density relief_depth
        m).vertices.length = m.vertices.length := by
  simp [apply_radial_voronoi, applyScale, copy_mesh]

/-- Helper: a successful multicenter run keeps the face list and the
vertex count. -/
theorem multicenter_topology (K : Type) [LinearOrderedField K]
    (shell_thickness density relief_depth : K) (seeds : List (Point K))
    (m out : Mesh K)
    (h : apply_multicenter_voronoi shell_thickness density relief_depth seeds m
        = .ok out) :
    out.faces = m.faces ∧ out.vertices.length = m.vertices.length := by
  unfold apply_multicenter_voronoi at h
  by_cases he : seeds.isEmpty
  · simp [he] at h
  · simp only [he, if_neg, Bool.false_eq_true, not_false_iff, if_false,
      Except.ok.injEq] at h
    subst h
    simp [applyScale, copy_mesh]

/-- Claim C7: For every mesh and every mode dispatched through
`run_pipeline`, a successful run returns a mesh with the same face list
and the same number of vertices as the input; if every face of the input
indexes inside the vertex list, every face of the output still does, and
a non-empty input never yields empty geometry. -/
theorem pipeline_preserves_topology (K : Type) [LinearOrderedField K]
    (cosF sinF : K → K) (piK : K) (mode : String)
    (shell_thickness density relief_depth : K) (seeds : List (Point K))
    (mesh out : Mesh K)
    (hrun : run_pipeline cosF sinF piK mode shell_thickness density
        relief_depth seeds mesh = .ok out)
    (hvalid : ∀ f ∈ mesh.faces, f.1 < mesh.vertices.length
        ∧ f.2.1 < mesh.vertices.length ∧ f.2.2 < mesh.vertices.length) :
    out.vertices.length = mesh.vertices.length
    ∧ out.faces = mesh.faces
    ∧ (∀ f ∈ out.faces, f.1 < out.vertices.length
        ∧ f.2.1 < out.vertices.length ∧ f.2.2 < out.vertices.length)
    ∧ (mesh.vertices ≠ [] → out.vertices ≠ []) := by
  have base : out.faces = mesh.faces ∧ out.vertices.length = mesh.vertices.length := by
    simp only [run_pipeline] at hrun
    split at hrun
    · cases hrun
      exact surface_topology K shell_thickness density relief_depth mesh
    · split at hrun
      · cases hrun
        exact radial_topology K cosF sinF piK shell_thickness density
          relief_depth mesh
      · split at hrun
        · exact multicenter_topology K shell_thickness density relief_depth
            seeds mesh out hrun
        · cases hrun
  obtain ⟨hf, hl⟩ := base
  refine ⟨hl, hf, ?_, ?_⟩
  · intro f hfmem
    rw [hf] at hfmem
    rw [hl]
    exact hvalid f hfmem
  · intro hne hcontra
    exact hne (List.length_eq_zero.mp (by rw [← hl, hcontra, List.length_nil]))

/-- Witness for **C7** at a concrete surface-mode run. -/
theorem pipeline_preserves_topology_witness :
    (run_pipeline (K := ℚ) id id 0 "surface" 2 0.5 1 [] sampleMesh
        = .ok (apply_surface_voronoi 2 0.5 1 sampleMesh))
    ∧ ((apply_surface_voronoi (2 : ℚ) 0.5 1 sampleMesh).vertices.length
        = sampleMesh.vertices.length
      ∧ (apply_surface_voronoi (2 : ℚ) 0.5 1 sampleMesh).faces = sampleMesh.faces
      ∧ (∀ f ∈ (apply_surface_voronoi (2 : ℚ) 0.5 1 sampleMesh).faces,
          f.1 < (apply_surface_voronoi (2 : ℚ) 0.5 1 sampleMesh).vertices.length
          ∧ f.2.1 < (apply_surface_voronoi (2 : ℚ) 0.5 1 sampleMesh).vertices.length
          ∧ f.2.2 < (apply_surface_voronoi (2 : ℚ) 0.5 1 sampleMesh).vertices.length)
      ∧ (sampleMesh.vertices ≠ [] →
          (apply_surface_voronoi (2 : ℚ) 0.5 1 sampleMesh).vertices ≠ [])) :=
  ⟨rfl,
    pipeline_preserves_topology ℚ id id 0 "surface" 2 0.5 1 [] sampleMesh
      (apply_surface_voronoi 2 0.5 1 sampleMesh) rfl (by decide)⟩

/-- Helper: unfolding one cons cell of an association-list lookup. -/
theorem lookup_cons_pair (K : Type) [LinearOrderedField K]
    (a : String) (b : MValue K) (t : Metadata K) (q : String) :
    List.lookup q ((a, b) :: t) = if q = a then some b else List.lookup q t := by
  by_cases h : q = a
  · simp [List.lookup, h]
  · simp [List.lookup, h, beq_false_of_ne h]

/-- Helper: looking up after the in-place override used by `dictInsert`
when the key is already present. -/
theorem lookup_map_override (K : Type) [LinearOrderedField K]
    (md : Metadata K) (k : String) (v : MValue K) (q : String) :
    (md.map (fun kv => if kv.1 = k then (k, v) else kv)).lookup q
      = if q = k then (if (md.lookup k).isSome then some v else none)
        else md.lookup q := by
  induction md with
  | nil => simp [List.lookup]
  | cons kv t ih =>
    obtain ⟨a, b⟩ := kv
    by_cases hk : a = k
    · subst hk
      by_cases hq : q = a <;>
        simp [List.map_cons, lookup_cons_pair, hq, ih]
    · by_cases hq : q = a
      · subst hq
        simp [List.map_cons, lookup_cons_pair, hk, Ne.symm hk]
      · by_cases hqk : q = k
        · subst hqk
          simp [List.map_cons, lookup_cons_pair, hq, hk, ih]
          rw [lookup_cons_pair K a b t q, if_neg hq]
        · simp [List.map_cons, lookup_cons_pair, hk, hq, hqk, ih]

/-- Helper: looking up after the append used by `dictInsert` when the key
is absent. -/
theorem lookup_append_one (K : Type) [LinearOrderedField K]
    (md : Metadata K) (k : String) (v : MValue K) (q : String) :
    (md ++ [(k, v)]).lookup q
      = (md.lookup q).or (if q = k then some v else none) := by
  induction md with
  | nil =>
    by_cases h : q = k
    · simp [lookup_cons_pair, List.lookup, h]
    · simp [lookup_cons_pair, List.lookup, h, beq_false_of_ne h]
  | cons kv t ih =>
    obtain ⟨a, b⟩ := kv
    by_cases hq : q = a <;>
      simp [List.cons_append, lookup_cons_pair, hq, ih]

/-- Helper: `dictInsert` behaves as functional override on lookups. -/
theorem lookup_dictInsert (K : Type) [LinearOrderedField K]
    (md : Metadata K) (k : String) (v : MValue K) (q : String) :
    (dictInsert md k v).lookup q = if q = k then some v else md.lookup q := by
  unfold dictInsert
  by_cases h : (md.lookup k).isSome
  · simp [h, lookup_map_override]
  · rw [if_neg h, lookup_append_one]
    by_cases hq : q = k
    · subst hq
      simp [Option.not_isSome_iff_eq_none.mp h]
    · simp [hq]

/-- Helper: lookups over the four `voronoi_*` entries every operator
writes. -/
theorem lookup_voronoiMeta (K : Type) [LinearOrderedField K]
    (tag : String) (shell_thickness density relief_depth : K)
    (old : Metadata K) (q : String) :
    (voronoiMeta tag shell_thickness density relief_depth old).lookup q
      = if q = "voronoi_relief_depth" then some (.x relief_depth)
        else if q = "voronoi_density" then some (.x density)
        else if q = "voronoi_shell_thickness" then some (.x shell_thickness)
        else if q = "voronoi_mode" then some (.s tag)
        else old.lookup q := by
  simp only [voronoiMeta, lookup_dictInsert]

/-- Helper: the surface operator's output metadata, independent of the
relief branch. -/
theorem surface_metadata_eq (K : Type) [LinearOrderedField K]
    (shell_thickness density relief_depth : K) (m : Mesh K) :
    (apply_surface_voronoi shell_thickness density relief_depth m).metadata
      = voronoiMeta "surface" shell_thickness density relief_depth
          m.metadata := by
  by_cases h : 0 < relief_depth <;> simp [apply_surface_voronoi, h]

/-- Claim C8: Every operator records in the output metadata the exact mode
tag under `voronoi_mode` and the numeric `shell_thickness`, `density` and
`relief_depth` values verbatim; metadata keys of the input other than the
`voronoi_*` keys are carried over unchanged (the `voronoi_*` keys always
overwrite), and multicenter additionally records
`voronoi_seed_count = |seeds|`. -/
theorem metadata_roundtrip (K : Type) [LinearOrderedField K]
    (cosF sinF : K → K) (piK shell_thickness density relief_depth : K)
    (seeds : List (Point K)) (mesh mout : Mesh K) :
    ((apply_surface_voronoi shell_thickness density relief_depth
        mesh).metadata.lookup "voronoi_mode" = some (.s "surface")
      ∧ (apply_surface_voronoi shell_thickness density relief_depth
        mesh).metadata.lookup "voronoi_shell_thickness" = some (.x shell_thickness)
      ∧ (apply_surface_voronoi shell_thickness density relief_depth
        mesh).metadata.lookup "voronoi_density" = some (.x density)
      ∧ (apply_surface_voronoi shell_thickness density relief_depth
        mesh).metadata.lookup "voronoi_relief_depth" = some (.x relief_depth)
      ∧ (∀ q, q ≠ "voronoi_mode" → q ≠ "voronoi_shell_thickness" →
          q ≠ "voronoi_density" → q ≠ "voronoi_relief_depth" →
          (apply_surface_voronoi shell_thickness density relief_depth
            mesh).metadata.lookup q = mesh.metadata.lookup q))
    ∧ ((apply_radial_voronoi cosF sinF piK shell_thickness density relief_depth
        mesh).metadata.lookup "voronoi_mode" = some (.s "radial")
      ∧ (apply_radial_voronoi cosF sinF piK shell_thickness density relief_depth
        mesh).metadata.lookup "voronoi_shell_thickness" = some (.x shell_thickness)
      ∧ (apply_radial_voronoi cosF sinF piK shell_thickness density relief_depth
        mesh).metadata.lookup "voronoi_density" = some (.x density)
      ∧ (apply_radial_voronoi cosF sinF piK shell_thickness density relief_depth
        mesh).metadata.lookup "voronoi_relief_depth" = some (.x relief_depth)
      ∧ (∀ q, q ≠ "voronoi_mode" → q ≠ "voronoi_shell_thickness" →
          q ≠ "voronoi_density" → q ≠ "voronoi_relief_depth" →
          (apply_radial_voronoi cosF sinF piK shell_thickness density
            relief_depth mesh).metadata.lookup q = mesh.metadata.lookup q))
    ∧ (apply_multicenter_voronoi shell_thickness density relief_depth seeds mesh
          = .ok mout →
        (mout.metadata.lookup "voronoi_mode" = some (.s "multicenter")
          ∧ mout.metadata.lookup "voronoi_shell_thickness" = some (.x shell_thickness)
          ∧ mout.metadata.lookup "voronoi_density" = some (.x density)
          ∧ mout.metadata.lookup "voronoi_relief_depth" = some (.x relief_depth)
          ∧ mout.metadata.lookup "voronoi_seed_count" = some (.n seeds.length)
          ∧ (∀ q, q ≠ "voronoi_mode" → q ≠ "voronoi_shell_thickness" →
              q ≠ "voronoi_density" → q ≠ "voronoi_relief_depth" →
              q ≠ "voronoi_seed_count" →
              mout.metadata.lookup q = mesh.metadata.lookup q))) := by
  refine ⟨⟨?_, ?_, ?_, ?_, ?_⟩, ⟨?_, ?_, ?_, ?_, ?_⟩, ?_⟩
  · rw [surface_metadata_eq, lookup_voronoiMeta]; simp
  · rw [surface_metadata_eq, lookup_voronoiMeta]; simp
  · rw [surface_metadata_eq, lookup_voronoiMeta]; simp
  · rw [surface_metadata_eq, lookup_voronoiMeta]; simp
  · intro q h1 h2 h3 h4
    rw [surface_metadata_eq, lookup_voronoiMeta]
    simp [h1, h2, h3, h4]
  · simp [apply_radial_voronoi, lookup_voronoiMeta]
  · simp [apply_radial_voronoi, lookup_voronoiMeta]
  · simp [apply_radial_voronoi, lookup_voronoiMeta]
  · simp [apply_radial_voronoi, lookup_voronoiMeta]
  · intro q h1 h2 h3 h4
    simp [apply_radial_voronoi, lookup_voronoiMeta, h1, h2, h3, h4]
  · intro h
    unfold apply_multicenter_voronoi at h
    by_cases he : seeds.isEmpty
    · simp [he] at h
    · simp only [he, Bool.false_eq_true, if_false, Except.ok.injEq] at h
      subst h
      refine ⟨?_, ?_, ?_, ?_, ?_, ?_⟩
      · simp [lookup_dictInsert, lookup_voronoiMeta]
      · simp [lookup_dictInsert, lookup_voronoiMeta]
      · simp [lookup_dictInsert, lookup_voronoiMeta]
      · simp [lookup_dictInsert, lookup_voronoiMeta]
      · simp [lookup_dictInsert, lookup_voronoiMeta]
      · intro q h1 h2 h3 h4 h5
        simp [lookup_dictInsert, lookup_voronoiMeta, h1, h2, h3, h4, h5]

/-- Witness for **C8** at concrete inputs: the surface tag, the carried
`"source"` key, and the multicenter seed count. -/
theorem metadata_roundtrip_witness :
    ((apply_surface_voronoi (2 : ℚ) 0.5 1 sampleMesh).metadata.lookup
        "voronoi_mode" = some (.s "surface"))
    ∧ ((apply_surface_voronoi (2 : ℚ) 0.5 1 sampleMesh).metadata.lookup
        "source" = sampleMesh.metadata.lookup "source")
    ∧ (((apply_multicenter_voronoi (2 : ℚ) 0.5 1 [(0, 0, 0)]
          sampleMesh).toOption.getD sampleMesh).metadata.lookup
        "voronoi_seed_count" = some (.n 1)) :=
  ⟨(metadata_roundtrip ℚ id id 0 2 0.5 1 [(0, 0, 0)] sampleMesh
      sampleMesh).1.1,
    (metadata_roundtrip ℚ id id 0 2 0.5 1 [(0, 0, 0)] sampleMesh
      sampleMesh).1.2.2.2.2 "source" (by decide) (by decide) (by decide)
      (by decide),
    ((metadata_roundtrip ℚ id id 0 2 0.5 1 [(0, 0, 0)] sampleMesh
      ((apply_multicenter_voronoi (2 : ℚ) 0.5 1 [(0, 0, 0)]
        sampleMesh).toOption.getD sampleMesh)).2.2 rfl).2.2.2.2.1⟩

/-- Claim C9: No operator mutates its input: threading the operators' local
mutation explicitly, the `mesh` binding still holds the original mesh
value after the call (for multicenter, also on the error path), the
returned mesh is the operator's functional result, and that result is a
new value: its vertex list is a freshly built map over the input's
vertices and its metadata is a freshly built mapping derived from the
input's metadata value. -/
theorem operators_never_mutate_input (K : Type) [LinearOrderedField K]
    (cosF sinF : K → K) (piK shell_thickness density relief_depth : K)
    (seeds : List (Point K)) (mesh : Mesh K) :
    apply_surface_voronoi_state shell_thickness density relief_depth mesh
      = (mesh, apply_surface_voronoi shell_thickness density relief_depth mesh)
    ∧ apply_radial_voronoi_state cosF sinF piK shell_thickness density
        relief_depth mesh
      = (mesh, apply_radial_voronoi cosF sinF piK shell_thickness density
          relief_depth mesh)
    ∧ (apply_multicenter_voronoi_state shell_thickness density relief_depth
        seeds mesh).1 = mesh
    ∧ (apply_multicenter_voronoi_state shell_thickness density relief_depth
        seeds mesh).2.2
      = apply_multicenter_voronoi shell_thickness density relief_depth seeds
          mesh
    ∧ (∃ f, (apply_surface_voronoi shell_thickness density relief_depth
        mesh).vertices = mesh.vertices.map f)
    ∧ (apply_surface_voronoi shell_thickness density relief_depth
        mesh).metadata
      = voronoiMeta "surface" shell_thickness density relief_depth
          mesh.metadata
    ∧ (∃ f, (apply_radial_voronoi cosF sinF piK shell_thickness density
        relief_depth mesh).vertices = mesh.vertices.map f)
    ∧ (apply_radial_voronoi cosF sinF piK shell_thickness density relief_depth
        mesh).metadata
      = voronoiMeta "radial" shell_thickness density relief_depth mesh.metadata
    ∧ (∀ mout, apply_multicenter_voronoi shell_thickness density relief_depth
          seeds mesh = .ok mout →
        (∃ f, mout.vertices = mesh.vertices.map f)
        ∧ mout.metadata
          = dictInsert
              (voronoiMeta "multicenter" shell_thickness density relief_depth
                mesh.metadata)
              "voronoi_seed_count" (.n seeds.length)) := by
  refine ⟨rfl, rfl, ?_, ?_, ?_, surface_metadata_eq K shell_thickness density
    relief_depth mesh, ?_, rfl, ?_⟩
  · by_cases he : seeds.isEmpty <;>
      simp [apply_multicenter_voronoi_state, he]
  · by_cases he : seeds.isEmpty <;>
      simp [apply_multicenter_voronoi_state, apply_multicenter_voronoi, he]
  · by_cases h : 0 < relief_depth
    · exact ⟨fun v =>
        (1 + max density 0 * 0.05 + max shell_thickness 0 * 0.01) • v
          + ((0 : K), (0 : K), relief_depth * 0.1),
        by simp [apply_surface_voronoi, applyScale, copy_mesh, h,
          List.map_map, Function.comp]⟩
    · exact ⟨fun v =>
        (1 + max density 0 * 0.05 + max shell_thickness 0 * 0.01) • v,
        by simp [apply_surface_voronoi, applyScale, copy_mesh, h]⟩
  · exact ⟨fun v => (1 + max shell_thickness 0 * 0.01) •
      rotateZAbout cosF sinF
        (max density 0 * (piK / 4) + relief_depth * 0.05)
        (copy_mesh mesh).centroid v,
      by simp [apply_radial_voronoi, applyScale, copy_mesh, List.map_map,
        Function.comp]⟩
  · intro mout h
    unfold apply_multicenter_voronoi at h
    by_cases he : seeds.isEmpty
    · simp [he] at h
    · simp only [he, Bool.false_eq_true, if_false, Except.ok.injEq] at h
      subst h
      refine ⟨⟨fun v =>
        (1 + max shell_thickness 0 * 0.005 * (seeds.length : K)) •
          (v + (max density 0 + relief_depth * 0.1) •
            (meanPoint seeds - (copy_mesh mesh).centroid)), ?_⟩, rfl⟩
      simp [applyScale, copy_mesh, List.map_map, Function.comp, smul_add]

/-- Witness for **C9**: the multicenter freshness component at a concrete
input. -/
theorem operators_never_mutate_input_witness :
    (apply_multicenter_voronoi_state (2 : ℚ) 0.5 1 [(0, 0, 0)] sampleMesh).1
      = sampleMesh
    ∧ (∃ f, ((apply_multicenter_voronoi (2 : ℚ) 0.5 1 [(0, 0, 0)]
          sampleMesh).toOption.getD sampleMesh).vertices
        = sampleMesh.vertices.map f) :=
  ⟨(operators_never_mutate_input ℚ id id 0 2 0.5 1 [(0, 0, 0)]
      sampleMesh).2.2.1,
    ((operators_never_mutate_input ℚ id id 0 2 0.5 1 [(0, 0, 0)]
      sampleMesh).2.2.2.2.2.2.2.2
      ((apply_multicenter_voronoi (2 : ℚ) 0.5 1 [(0, 0, 0)]
        sampleMesh).toOption.getD sampleMesh) rfl).1⟩

/-- Claim C10: When `--relief-depth` is omitted, the CLI `run` command
substitutes `1.0` in surface mode and `0.0` in the other modes before
validation; with the remaining defaults (`shell_thickness = 2.0`,
`density = 0.5`) a surface-mode invocation then passes validation
(in particular the `relief_depth > 0` surface rule). -/
theorem cli_relief_default (K : Type) [LinearOrderedField K] :
    resolve_relief_depth (K := K) .surface none = 1
    ∧ resolve_relief_depth (K := K) .radial none = 0
    ∧ resolve_relief_depth (K := K) .multicenter none = 0
    ∧ validate_parameters (K := K) .surface default_shell_thickness
        default_density (resolve_relief_depth .surface none) []
      = .ok () := by
  refine ⟨rfl, rfl, rfl, ?_⟩
  simp [validate_parameters, ensure_positive, ensure_non_negative,
    ensure_at_most, resolve_relief_depth, default_shell_thickness,
    default_density, Bind.bind, Except.bind, pure, Except.pure,
    (by norm_num : ¬((2.0 : K) ≤ 0)), (by norm_num : ¬((0.5 : K) < 0)),
    (by norm_num : ¬((1 : K) < 0.5)), (by norm_num : ¬((1 : K) < 0)),
    (by norm_num : (1 : K) ≠ 0)]

end VoronoiMaker
